import Mathlib

/-!
Verification of the `ReplayMerge` merge-orchestration state machine
(`src/aeron-archive/src/main/cpp/client/ReplayMerge.cpp`).

The state machine is shallowly embedded: each C++ member function becomes a
Lean function from the machine state and a per-call environment (the values
the external collaborators — archive proxy, control-response poller,
subscription, image, clock — would return during that call) to an
`Except`-wrapped result.  Observable interactions with the collaborators
(destination add/remove, successfully enqueued control requests, consumed
matched responses) are recorded in an effect list so that trace properties
(exactly-once cleanup, request/response windows) can be stated.
-/

namespace ReplayMergeSpec

/-- aeron::NULL_VALUE sentinel. -/
def NULL_VALUE : Int := -1

/-- aeron NULL_POSITION sentinel. -/
def NULL_POSITION : Int := -1

/-- MDC_CONTROL_MODE_MANUAL channel-uri constant. -/
def MDC_CONTROL_MODE_MANUAL : String := "manual"

/-- ReplayMerge::State enum, in declaration order (the C++ enum values are
0..6 in this order, which is what `std::to_string(m_state)` prints). -/
inductive MergeState
  | GET_RECORDING_POSITION
  | REPLAY
  | CATCHUP
  | ATTEMPT_LIVE_JOIN
  | STOP_REPLAY
  | MERGED
  | CLOSED
deriving DecidableEq, Repr

/-- Numeric value of the C++ enum constant. -/
def MergeState.idx : MergeState → Nat
  | .GET_RECORDING_POSITION => 0
  | .REPLAY => 1
  | .CATCHUP => 2
  | .ATTEMPT_LIVE_JOIN => 3
  | .STOP_REPLAY => 4
  | .MERGED => 5
  | .CLOSED => 6

/-- Immutable construction parameters kept by the machine
(`m_replayDestination`, `m_liveDestination`, `m_recordingId`,
`m_startPosition`, `m_mergeProgressTimeoutMs`, and the archive's constant
control-session id).  The two proximity-window thresholds of the join/cutover
policy are configuration (the spec's design notes treat the threshold values
as external tuning policy). -/
structure Config where
  replayDestination : String
  liveDestination : String
  recordingId : Int
  startPosition : Int
  mergeProgressTimeoutMs : Int
  controlSessionId : Int
  liveAddThreshold : Int
  replayRemoveThreshold : Int
deriving DecidableEq, Repr

/-- Mutable members of ReplayMerge.  `imageResolved` stands for
`m_image != nullptr` (the image's live position and closed flag are read from
the environment each call, since they change externally). -/
structure ReplayMerge where
  cfg : Config
  state : MergeState
  activeCorrelationId : Int
  nextTargetPosition : Int
  isReplayActive : Bool
  isLiveAdded : Bool
  replaySessionId : Int
  timeOfLastProgressMs : Int
  positionOfLastProgress : Int
  imageResolved : Bool
deriving DecidableEq, Repr

/-- Exceptions thrown by the embedded code: util::IllegalArgumentException,
TimeoutException, and ArchiveException (error code + message). -/
inductive MergeError
  | illegalArgument (msg : String)
  | timeout (msg : String)
  | archiveError (errorCode : Int) (msg : String)
deriving DecidableEq, Repr

/-- Observable interactions with the external collaborators.  Request
effects are recorded when the archive proxy accepts (successfully enqueues)
the request; `responseMatched` is recorded when a completed, matched,
non-error control response is consumed from the poller. -/
inductive Effect
  | addDestination (dest : String)
  | removeDestination (dest : String)
  | getRecordingPositionRequest (cid : Int)
  | getStopPositionRequest (cid : Int)
  | replayRequest (cid : Int)
  | stopReplayRequest (cid : Int)
  | responseMatched (cid : Int)
deriving DecidableEq, Repr

/-- Per-call environment: what the external collaborators answer during one
`doWork` step.  `mintedCorrelationId` is the value `nextCorrelationId()`
returns, `enqueueOk` whether the archive proxy accepts the offered request,
the `poll*` fields describe the control-response poller's most recently
completed response, and the remaining fields describe the subscription and
the replay image. -/
structure Env where
  mintedCorrelationId : Int
  enqueueOk : Bool
  pollCount : Int
  pollComplete : Bool
  pollControlSessionId : Int
  pollCorrelationId : Int
  pollIsCodeError : Bool
  pollRelevantId : Int
  pollErrorMessage : String
  subIsConnected : Bool
  imageFound : Bool
  imagePosition : Int
  imageClosed : Bool
deriving DecidableEq, Repr

/-- Wrap-around of `static_cast<std::int32_t>` applied to a 64-bit value. -/
def toInt32 (x : Int) : Int :=
  (x + 2 ^ 31) % 2 ^ 32 - 2 ^ 31

/-- ReplayMerge::pollForResponse (ReplayMerge.cpp lines 274-294): consume at
most one completed response; a response is relevant only when both the
control-session id and the correlation id match, and a matched response
carrying an error code throws an ArchiveException. -/
def pollForResponse (controlSessionId correlationId : Int) (env : Env) :
    Except MergeError Bool :=
  if 0 < env.pollCount ∧ env.pollComplete = true then
    if env.pollControlSessionId = controlSessionId ∧
        env.pollCorrelationId = correlationId then
      if env.pollIsCodeError then
        .error (.archiveError (toInt32 env.pollRelevantId)
          ("archive response for correlationId=" ++ toString correlationId ++
            ", error: " ++ env.pollErrorMessage))
      else
        .ok true
    else
      .ok false
  else
    .ok false

/-- Result of one `doWork`-style call: new machine, work count, effects. -/
abbrev StepResult := ReplayMerge × Nat × List Effect

/-- ReplayMerge::getRecordingPosition (lines 76-116). -/
def getRecordingPosition (m : ReplayMerge) (nowMs : Int) (env : Env) :
    Except MergeError StepResult :=
  if m.activeCorrelationId = NULL_VALUE then
    if env.enqueueOk then
      .ok ({ m with timeOfLastProgressMs := nowMs,
                    activeCorrelationId := env.mintedCorrelationId },
        1, [.getRecordingPositionRequest env.mintedCorrelationId])
    else
      .ok (m, 0, [])
  else
    match pollForResponse m.cfg.controlSessionId m.activeCorrelationId env with
    | .error e => .error e
    | .ok false => .ok (m, 0, [])
    | .ok true =>
      if env.pollRelevantId = NULL_POSITION then
        if env.enqueueOk then
          .ok ({ m with nextTargetPosition := env.pollRelevantId,
                        timeOfLastProgressMs := nowMs,
                        activeCorrelationId := env.mintedCorrelationId },
            2, [.responseMatched m.activeCorrelationId,
                .getStopPositionRequest env.mintedCorrelationId])
        else
          .ok ({ m with nextTargetPosition := env.pollRelevantId,
                        activeCorrelationId := NULL_VALUE },
            1, [.responseMatched m.activeCorrelationId])
      else
        .ok ({ m with nextTargetPosition := env.pollRelevantId,
                      activeCorrelationId := NULL_VALUE,
                      timeOfLastProgressMs := nowMs,
                      state := .REPLAY },
          1, [.responseMatched m.activeCorrelationId])

/-- ReplayMerge::replay (lines 118-154).  The replay-channel URI building
(linger forced to 0, eos forced to false) is external string manipulation;
the successfully enqueued replay request is recorded as an effect. -/
def replay (m : ReplayMerge) (nowMs : Int) (env : Env) :
    Except MergeError StepResult :=
  if m.activeCorrelationId = NULL_VALUE then
    if env.enqueueOk then
      .ok ({ m with timeOfLastProgressMs := nowMs,
                    activeCorrelationId := env.mintedCorrelationId },
        1, [.replayRequest env.mintedCorrelationId])
    else
      .ok (m, 0, [])
  else
    match pollForResponse m.cfg.controlSessionId m.activeCorrelationId env with
    | .error e => .error e
    | .ok false => .ok (m, 0, [])
    | .ok true =>
      .ok ({ m with isReplayActive := true,
                    replaySessionId := env.pollRelevantId,
                    timeOfLastProgressMs := nowMs,
                    activeCorrelationId := NULL_VALUE,
                    state := .CATCHUP },
        1, [.responseMatched m.activeCorrelationId])

/-- First block of ReplayMerge::catchup (lines 160-165): once the
subscription reports connectivity, refresh the progress clock and resolve the
image by replay session id (the clock is refreshed even when the lookup still
returns null, as the C++ does); `m_positionOfLastProgress` is seeded from the
image's position, or the sentinel when the lookup failed. -/
def catchupResolveImage (m : ReplayMerge) (nowMs : Int) (env : Env) :
    ReplayMerge :=
  if m.imageResolved = false ∧ env.subIsConnected = true then
    { m with timeOfLastProgressMs := nowMs,
             imageResolved := env.imageFound,
             positionOfLastProgress :=
               if env.imageFound then env.imagePosition else NULL_VALUE }
  else m

/-- Second block of ReplayMerge::catchup (lines 167-185): compare the image
position to the target, throw on an unexpectedly closed image, refresh the
progress clock when the position advances. -/
def catchupCompare (m0 : ReplayMerge) (nowMs : Int) (env : Env) :
    Except MergeError StepResult :=
  if m0.imageResolved then
    if m0.nextTargetPosition ≤ env.imagePosition then
      .ok ({ m0 with timeOfLastProgressMs := nowMs,
                     activeCorrelationId := NULL_VALUE,
                     state := .ATTEMPT_LIVE_JOIN }, 1, [])
    else if env.imageClosed then
      .error (.timeout "ReplayMerge Image closed unexpectedly.")
    else if m0.positionOfLastProgress < env.imagePosition then
      .ok ({ m0 with timeOfLastProgressMs := nowMs,
                     positionOfLastProgress := env.imagePosition }, 0, [])
    else
      .ok (m0, 0, [])
  else
    .ok (m0, 0, [])

/-- ReplayMerge::catchup (lines 156-188): the image-resolution block followed
by the position-comparison block. -/
def catchup (m : ReplayMerge) (nowMs : Int) (env : Env) :
    Except MergeError StepResult :=
  catchupCompare (catchupResolveImage m nowMs env) nowMs env

/-- Modelled from the spec: `shouldAddLiveDestination` is declared in
`ReplayMerge.h`, which is not under `src/`.  Per §4.2 and §3 of the spec the
live destination is added at most once, once the gap between the resolved
target position and the image's consumed position is within the configured
proximity window. -/
def shouldAddLiveDestination (m : ReplayMerge) (position : Int) : Bool :=
  !m.isLiveAdded && decide (m.nextTargetPosition - position ≤ m.cfg.liveAddThreshold)

/-- Modelled from the spec: `shouldStopAndRemoveReplay` is declared in
`ReplayMerge.h`, which is not under `src/`.  Per §4.2 of the spec the replay
is stopped and its destination removed once the live path covers the required
range: the live destination is already added, the target has moved past the
start position, and the gap has closed to within the configured cutover
window. -/
def shouldStopAndRemoveReplay (m : ReplayMerge) (position : Int) : Bool :=
  decide (m.cfg.startPosition < m.nextTargetPosition) &&
    (m.isLiveAdded &&
      decide (m.nextTargetPosition - position ≤ m.cfg.replayRemoveThreshold))

/-- ReplayMerge::attemptLiveJoin (lines 190-249). -/
def attemptLiveJoin (m : ReplayMerge) (nowMs : Int) (env : Env) :
    Except MergeError StepResult :=
  if m.activeCorrelationId = NULL_VALUE then
    if env.enqueueOk then
      .ok ({ m with timeOfLastProgressMs := nowMs,
                    activeCorrelationId := env.mintedCorrelationId },
        1, [.getRecordingPositionRequest env.mintedCorrelationId])
    else
      .ok (m, 0, [])
  else
    match pollForResponse m.cfg.controlSessionId m.activeCorrelationId env with
    | .error e => .error e
    | .ok false => .ok (m, 0, [])
    | .ok true =>
      if env.pollRelevantId = NULL_POSITION then
        if env.enqueueOk then
          .ok ({ m with nextTargetPosition := env.pollRelevantId,
                        timeOfLastProgressMs := nowMs,
                        activeCorrelationId := env.mintedCorrelationId },
            1, [.responseMatched m.activeCorrelationId,
                .getRecordingPositionRequest env.mintedCorrelationId])
        else
          .ok ({ m with nextTargetPosition := env.pollRelevantId,
                        activeCorrelationId := NULL_VALUE },
            1, [.responseMatched m.activeCorrelationId])
      else
        if m.imageResolved then
          if shouldAddLiveDestination
              { m with nextTargetPosition := env.pollRelevantId }
              env.imagePosition then
            .ok ({ m with nextTargetPosition := env.pollRelevantId,
                          activeCorrelationId := NULL_VALUE,
                          timeOfLastProgressMs := nowMs,
                          isLiveAdded := true,
                          state := .CATCHUP },
              1, [.responseMatched m.activeCorrelationId,
                  .addDestination m.cfg.liveDestination])
          else if shouldStopAndRemoveReplay
              { m with nextTargetPosition := env.pollRelevantId }
              env.imagePosition then
            .ok ({ m with nextTargetPosition := env.pollRelevantId,
                          activeCorrelationId := NULL_VALUE,
                          timeOfLastProgressMs := nowMs,
                          state := .STOP_REPLAY },
              1, [.responseMatched m.activeCorrelationId,
                  .removeDestination m.cfg.replayDestination])
          else
            .ok ({ m with nextTargetPosition := env.pollRelevantId,
                          activeCorrelationId := NULL_VALUE,
                          state := .CATCHUP },
              1, [.responseMatched m.activeCorrelationId])
        else
          .ok ({ m with nextTargetPosition := env.pollRelevantId,
                        activeCorrelationId := NULL_VALUE,
                        state := .CATCHUP },
            1, [.responseMatched m.activeCorrelationId])

/-- ReplayMerge::stopReplay (lines 251-264): offer a stop-replay request to
the archive proxy; when the offer is accepted, mark the replay inactive and
transition to MERGED.  No response is awaited for this request. -/
def stopReplay (m : ReplayMerge) (env : Env) : Except MergeError StepResult :=
  if env.enqueueOk then
    .ok ({ m with isReplayActive := false, state := .MERGED },
      1, [.stopReplayRequest env.mintedCorrelationId])
  else
    .ok (m, 0, [])

/-- Modelled from the spec: `hasProgressStalled` is declared in
`ReplayMerge.h`, which is not under `src/`.  §4.4: the merge has stalled when
`now - progressClock > progressTimeoutDuration`. -/
def hasProgressStalled (m : ReplayMerge) (nowMs : Int) : Bool :=
  decide (m.timeOfLastProgressMs + m.cfg.mergeProgressTimeoutMs < nowMs)

/-- ReplayMerge::checkProgress (lines 266-272).  `std::to_string(m_state)`
prints the enum's integer value. -/
def checkProgress (m : ReplayMerge) (nowMs : Int) : Except MergeError Unit :=
  if hasProgressStalled m nowMs then
    .error (.timeout ("ReplayMerge no progress state=" ++ toString m.state.idx))
  else
    .ok ()

/-- Modelled from the spec: the per-state dispatch (`doWork` in
`ReplayMerge.h`) is not under `src/`.  §4.2: each state dispatches to its
handler; MERGED and CLOSED are terminal and perform no work. -/
def step (m : ReplayMerge) (nowMs : Int) (env : Env) :
    Except MergeError StepResult :=
  match m.state with
  | .GET_RECORDING_POSITION => getRecordingPosition m nowMs env
  | .REPLAY => replay m nowMs env
  | .CATCHUP => catchup m nowMs env
  | .ATTEMPT_LIVE_JOIN => attemptLiveJoin m nowMs env
  | .STOP_REPLAY => stopReplay m env
  | .MERGED => .ok (m, 0, [])
  | .CLOSED => .ok (m, 0, [])

/-- Environment for teardown: whether the owning aeron client is already
closed, and the correlation id / proxy answer for the best-effort
stop-replay offer. -/
structure CloseEnv where
  aeronClosed : Bool
  mintedCorrelationId : Int
  enqueueOk : Bool
deriving DecidableEq, Repr

/-- ReplayMerge::~ReplayMerge (lines 53-74): idempotent teardown.  If not yet
CLOSED and the aeron client is still open, remove the replay destination
unless the state is MERGED or STOP_REPLAY, and fire a best-effort stop-replay
request if the replay is still active (the destructor ignores the proxy's
answer; the effect records an accepted offer); finally mark CLOSED. -/
def teardown (m : ReplayMerge) (env : CloseEnv) : ReplayMerge × List Effect :=
  if m.state = .CLOSED then
    (m, [])
  else if env.aeronClosed then
    ({ m with state := .CLOSED }, [])
  else if m.isReplayActive then
    ({ m with isReplayActive := false, state := .CLOSED },
      (if m.state ≠ .MERGED ∧ m.state ≠ .STOP_REPLAY then
        [Effect.removeDestination m.cfg.replayDestination]
       else []) ++
      (if env.enqueueOk then [Effect.stopReplayRequest env.mintedCorrelationId]
       else []))
  else
    ({ m with state := .CLOSED },
      if m.state ≠ .MERGED ∧ m.state ≠ .STOP_REPLAY then
        [Effect.removeDestination m.cfg.replayDestination]
      else [])

/-- Field values of a freshly constructed machine.  The progress clock is
initialized from the clock (ReplayMerge.cpp line 40); the remaining initial
values are the in-class member initializers of `ReplayMerge.h`, which is not
under `src/` — modelled from the spec: initial state GET_RECORDING_POSITION,
no request outstanding, target position and replay session unresolved, no
image resolved, replay not active, live destination not added. -/
def initMerge (cfg : Config) (nowMs : Int) : ReplayMerge :=
  { cfg := cfg
    state := .GET_RECORDING_POSITION
    activeCorrelationId := NULL_VALUE
    nextTargetPosition := NULL_POSITION
    isReplayActive := false
    isLiveAdded := false
    replaySessionId := NULL_VALUE
    timeOfLastProgressMs := nowMs
    positionOfLastProgress := NULL_POSITION
    imageResolved := false }

/-- ReplayMerge::ReplayMerge (lines 21-51).  `controlMode` is the
subscription channel's control-mode attribute (channel-uri parsing is an
external collaborator).  Throws IllegalArgumentException unless the mode is
"manual"; on success the replay destination is added to the subscription. -/
def construct (cfg : Config) (controlMode : String) (nowMs : Int) :
    Except MergeError (ReplayMerge × List Effect) :=
  if controlMode ≠ MDC_CONTROL_MODE_MANUAL then
    .error (.illegalArgument
      ("subscription channel must be manual control mode: mode=" ++ controlMode))
  else
    .ok (initMerge cfg nowMs, [.addDestination cfg.replayDestination])

/-- One operation of the host loop: a `doWork` step or an explicit close. -/
inductive Op
  | work (nowMs : Int) (env : Env)
  | close (env : CloseEnv)
deriving Repr

/-- Apply one host-loop operation. -/
def applyOp (m : ReplayMerge) : Op → Except MergeError (ReplayMerge × List Effect)
  | .work nowMs env =>
    match step m nowMs env with
    | .error e => .error e
    | .ok (m', _, effs) => .ok (m', effs)
  | .close env => .ok (teardown m env)

/-- Run a sequence of host-loop operations, accumulating the effect trace.
A fatal error aborts the run (the caller abandons the merge). -/
def run (m : ReplayMerge) : List Op → ReplayMerge × List Effect
  | [] => (m, [])
  | op :: ops =>
    match applyOp m op with
    | .error _ => (m, [])
    | .ok (m', effs) =>
      let r := run m' ops
      (r.1, effs ++ r.2)

/-! ### Effect-trace accounting -/

/-- Number of `removeDestination` effects in a trace. -/
def destRemovals (effs : List Effect) : Nat :=
  effs.countP fun e => match e with
    | .removeDestination _ => true
    | _ => false

/-- Number of `addDestination` effects in a trace. -/
def destAdds (effs : List Effect) : Nat :=
  effs.countP fun e => match e with
    | .addDestination _ => true
    | _ => false

/-- Number of successfully enqueued stop-replay requests in a trace. -/
def stopRequests (effs : List Effect) : Nat :=
  effs.countP fun e => match e with
    | .stopReplayRequest _ => true
    | _ => false

/-- Number of consumed matched responses in a trace. -/
def matchedResponses (effs : List Effect) : Nat :=
  effs.countP fun e => match e with
    | .responseMatched _ => true
    | _ => false

/-- Number of successfully enqueued awaited requests (those whose response
the machine will poll for; the fire-and-forget stop-replay request is not
awaited) in a trace. -/
def awaitedRequests (effs : List Effect) : Nat :=
  effs.countP fun e => match e with
    | .getRecordingPositionRequest _ => true
    | .getStopPositionRequest _ => true
    | .replayRequest _ => true
    | _ => false

/-- Ghost outstanding-request slot, as dictated by the observable effects:
an awaited request opens a window keyed by its correlation id; consuming a
matched response closes it. -/
def ghostStep (g : Int) : Effect → Int
  | .getRecordingPositionRequest cid => cid
  | .getStopPositionRequest cid => cid
  | .replayRequest cid => cid
  | .responseMatched _ => NULL_VALUE
  | _ => g

/-- Fold the ghost outstanding-request slot over an effect trace. -/
def ghostRun (g : Int) (effs : List Effect) : Int :=
  effs.foldl ghostStep g

/-- Edges of the state diagram: stay put, the forward chain
GET_RECORDING_POSITION → REPLAY → CATCHUP → ATTEMPT_LIVE_JOIN →
{CATCHUP, STOP_REPLAY} → MERGED, or close from anywhere. -/
def allowedEdge (s t : MergeState) : Bool :=
  s = t ∨
    (s = .GET_RECORDING_POSITION ∧ t = .REPLAY) ∨
    (s = .REPLAY ∧ t = .CATCHUP) ∨
    (s = .CATCHUP ∧ t = .ATTEMPT_LIVE_JOIN) ∨
    (s = .ATTEMPT_LIVE_JOIN ∧ t = .CATCHUP) ∨
    (s = .ATTEMPT_LIVE_JOIN ∧ t = .STOP_REPLAY) ∨
    (s = .STOP_REPLAY ∧ t = .MERGED) ∨
    t = .CLOSED

/-- Reachability invariant tying a machine to its effect trace: the
outstanding-request slot agrees with the ghost derived from the trace (and is
empty in CATCHUP), the replay destination has been removed exactly when the
machine has passed the cutover (STOP_REPLAY/MERGED) and never more than once,
and at most one stop-replay request is ever issued — none while the replay is
still active or before the machine has merged or closed. -/
def TInv (m : ReplayMerge) (effs : List Effect) : Prop :=
  (m.state = .CATCHUP → m.activeCorrelationId = NULL_VALUE) ∧
  m.activeCorrelationId = ghostRun NULL_VALUE effs ∧
  (m.state ≠ .STOP_REPLAY ∧ m.state ≠ .MERGED ∧ m.state ≠ .CLOSED →
    destRemovals effs = 0) ∧
  ((m.state = .STOP_REPLAY ∨ m.state = .MERGED) → destRemovals effs = 1) ∧
  destRemovals effs ≤ 1 ∧
  stopRequests effs ≤ 1 ∧
  (m.state ≠ .MERGED ∧ m.state ≠ .CLOSED → stopRequests effs = 0) ∧
  (m.isReplayActive = true → stopRequests effs = 0)

/-! ### Helper lemmas about effect accounting -/

theorem destRemovals_append (l1 l2 : List Effect) :
    destRemovals (l1 ++ l2) = destRemovals l1 + destRemovals l2 := by
  simp [destRemovals, List.countP_append]

theorem stopRequests_append (l1 l2 : List Effect) :
    stopRequests (l1 ++ l2) = stopRequests l1 + stopRequests l2 := by
  simp [stopRequests, List.countP_append]

theorem destAdds_append (l1 l2 : List Effect) :
    destAdds (l1 ++ l2) = destAdds l1 + destAdds l2 := by
  simp [destAdds, List.countP_append]

theorem ghostRun_append (g : Int) (l1 l2 : List Effect) :
    ghostRun g (l1 ++ l2) = ghostRun (ghostRun g l1) l2 := by
  simp [ghostRun, List.foldl_append]

/-- Extension step for TInv when neither the pre- nor the post-state is past
the cutover (STOP_REPLAY/MERGED/CLOSED) and the step's effects contain no
destination removal and no stop-replay request. -/
theorem tinv_extend_plain (m m' : ReplayMerge) (effs0 effs : List Effect)
    (hinv : TInv m effs0)
    (hpre : m.state ≠ .STOP_REPLAY ∧ m.state ≠ .MERGED ∧ m.state ≠ .CLOSED)
    (hst : m'.state ≠ .STOP_REPLAY ∧ m'.state ≠ .MERGED ∧ m'.state ≠ .CLOSED)
    (hc : m'.state = .CATCHUP → m'.activeCorrelationId = NULL_VALUE)
    (hghost : m'.activeCorrelationId = ghostRun m.activeCorrelationId effs)
    (_hact : m'.isReplayActive = m.isReplayActive)
    (hrm : destRemovals effs = 0) (hsr : stopRequests effs = 0) :
    TInv m' (effs0 ++ effs) := by
  obtain ⟨h1, h2, h3, h4, h5, h6, h7, h8⟩ := hinv
  have hrm0 : destRemovals effs0 = 0 := h3 hpre
  have hsr0 : stopRequests effs0 = 0 := h7 ⟨hpre.2.1, hpre.2.2⟩
  refine ⟨hc, ?_, ?_, ?_, ?_, ?_, ?_, ?_⟩
  · rw [ghostRun_append, ← h2]; exact hghost
  · intro _; rw [destRemovals_append, hrm0, hrm]
  · intro hcon
    rcases hcon with hcon | hcon
    · exact absurd hcon hst.1
    · exact absurd hcon hst.2.1
  · rw [destRemovals_append, hrm0, hrm]; omega
  · rw [stopRequests_append, hsr0, hsr]; omega
  · intro _; rw [stopRequests_append, hsr0, hsr]
  · intro ha; rw [stopRequests_append, hsr0, hsr]

/-- The image-resolution block does not change the state, the outstanding
correlation id, the replay-active flag, the target, or the configuration. -/
theorem catchupResolveImage_fields (m : ReplayMerge) (nowMs : Int) (env : Env) :
    (catchupResolveImage m nowMs env).state = m.state ∧
    (catchupResolveImage m nowMs env).activeCorrelationId = m.activeCorrelationId ∧
    (catchupResolveImage m nowMs env).isReplayActive = m.isReplayActive ∧
    (catchupResolveImage m nowMs env).nextTargetPosition = m.nextTargetPosition ∧
    (catchupResolveImage m nowMs env).cfg = m.cfg := by
  unfold catchupResolveImage
  split <;> simp

/-- TInv is preserved by `catchup` from state CATCHUP. -/
theorem tinv_catchup (m : ReplayMerge) (effs0 : List Effect) (nowMs : Int)
    (env : Env) (m' : ReplayMerge) (wc : Nat) (effs : List Effect)
    (hs : m.state = .CATCHUP) (hinv : TInv m effs0)
    (h : catchup m nowMs env = .ok (m', wc, effs)) :
    TInv m' (effs0 ++ effs) := by
  have hpre : m.state ≠ .STOP_REPLAY ∧ m.state ≠ .MERGED ∧ m.state ≠ .CLOSED := by
    rw [hs]; exact ⟨by decide, by decide, by decide⟩
  have hcid : m.activeCorrelationId = NULL_VALUE := hinv.1 hs
  obtain ⟨hrs, hrc, hra, hrt, hrg⟩ := catchupResolveImage_fields m nowMs env
  unfold catchup catchupCompare at h
  split at h
  · split at h
    · -- image reached target: advance to ATTEMPT_LIVE_JOIN
      simp only [Except.ok.injEq, Prod.mk.injEq] at h
      obtain ⟨hm, -, he⟩ := h
      subst hm; subst he
      refine tinv_extend_plain m _ effs0 _ hinv hpre ?_ ?_ hcid.symm hra rfl rfl
      · exact ⟨by simp, by simp, by simp⟩
      · intro hcon; simp at hcon
    · split at h
      · exact absurd h (by simp)
      · split at h
        · -- image position advanced
          simp only [Except.ok.injEq, Prod.mk.injEq] at h
          obtain ⟨hm, -, he⟩ := h
          subst hm; subst he
          refine tinv_extend_plain m _ effs0 _ hinv hpre ?_ ?_ hrc hra rfl rfl
          · exact ⟨by simp [hrs, hs], by simp [hrs, hs], by simp [hrs, hs]⟩
          · intro _; exact hrc.trans hcid
        · -- no progress
          simp only [Except.ok.injEq, Prod.mk.injEq] at h
          obtain ⟨hm, -, he⟩ := h
          subst hm; subst he
          refine tinv_extend_plain m _ effs0 _ hinv hpre ?_ ?_ hrc hra rfl rfl
          · exact ⟨by simp [hrs, hs], by simp [hrs, hs], by simp [hrs, hs]⟩
          · intro _; exact hrc.trans hcid
  · -- image not resolved
    simp only [Except.ok.injEq, Prod.mk.injEq] at h
    obtain ⟨hm, -, he⟩ := h
    subst hm; subst he
    refine tinv_extend_plain m _ effs0 _ hinv hpre ?_ ?_ hrc hra rfl rfl
    · exact ⟨by simp [hrs, hs], by simp [hrs, hs], by simp [hrs, hs]⟩
    · intro _; exact hrc.trans hcid

/-- TInv is preserved by `getRecordingPosition` from its state. -/
theorem tinv_getRecordingPosition (m : ReplayMerge) (effs0 : List Effect)
    (nowMs : Int) (env : Env) (m' : ReplayMerge) (wc : Nat) (effs : List Effect)
    (hs : m.state = .GET_RECORDING_POSITION) (hinv : TInv m effs0)
    (h : getRecordingPosition m nowMs env = .ok (m', wc, effs)) :
    TInv m' (effs0 ++ effs) := by
  have hpre : m.state ≠ .STOP_REPLAY ∧ m.state ≠ .MERGED ∧ m.state ≠ .CLOSED := by
    rw [hs]; exact ⟨by decide, by decide, by decide⟩
  unfold getRecordingPosition at h
  split at h
  · split at h
    · -- issue get-recording-position request
      simp only [Except.ok.injEq, Prod.mk.injEq] at h
      obtain ⟨hm, -, he⟩ := h; subst hm; subst he
      refine tinv_extend_plain m _ effs0 _ hinv hpre ?_ ?_ rfl rfl rfl rfl
      · exact ⟨by simp [hs], by simp [hs], by simp [hs]⟩
      · intro hcon; simp [hs] at hcon
    · -- proxy did not accept the offer
      simp only [Except.ok.injEq, Prod.mk.injEq] at h
      obtain ⟨hm, -, he⟩ := h; subst hm; subst he
      simpa using hinv
  · split at h
    · simp at h
    · -- no matching completed response
      simp only [Except.ok.injEq, Prod.mk.injEq] at h
      obtain ⟨hm, -, he⟩ := h; subst hm; subst he
      simpa using hinv
    · split at h
      · split at h
        · -- target unresolved, get-stop-position accepted
          simp only [Except.ok.injEq, Prod.mk.injEq] at h
          obtain ⟨hm, -, he⟩ := h; subst hm; subst he
          refine tinv_extend_plain m _ effs0 _ hinv hpre ?_ ?_ rfl rfl rfl rfl
          · exact ⟨by simp [hs], by simp [hs], by simp [hs]⟩
          · intro hcon; simp [hs] at hcon
        · -- target unresolved, offer rejected
          simp only [Except.ok.injEq, Prod.mk.injEq] at h
          obtain ⟨hm, -, he⟩ := h; subst hm; subst he
          refine tinv_extend_plain m _ effs0 _ hinv hpre ?_ ?_ rfl rfl rfl rfl
          · exact ⟨by simp [hs], by simp [hs], by simp [hs]⟩
          · intro hcon; simp [hs] at hcon
      · -- target resolved: advance to REPLAY
        simp only [Except.ok.injEq, Prod.mk.injEq] at h
        obtain ⟨hm, -, he⟩ := h; subst hm; subst he
        refine tinv_extend_plain m _ effs0 _ hinv hpre ?_ ?_ rfl rfl rfl rfl
        · exact ⟨by simp, by simp, by simp⟩
        · intro hcon; simp at hcon

/-- TInv is preserved by `replay` from its state. -/
theorem tinv_replay (m : ReplayMerge) (effs0 : List Effect)
    (nowMs : Int) (env : Env) (m' : ReplayMerge) (wc : Nat) (effs : List Effect)
    (hs : m.state = .REPLAY) (hinv : TInv m effs0)
    (h : replay m nowMs env = .ok (m', wc, effs)) :
    TInv m' (effs0 ++ effs) := by
  have hpre : m.state ≠ .STOP_REPLAY ∧ m.state ≠ .MERGED ∧ m.state ≠ .CLOSED := by
    rw [hs]; exact ⟨by decide, by decide, by decide⟩
  unfold replay at h
  split at h
  · split at h
    · -- issue replay request
      simp only [Except.ok.injEq, Prod.mk.injEq] at h
      obtain ⟨hm, -, he⟩ := h; subst hm; subst he
      refine tinv_extend_plain m _ effs0 _ hinv hpre ?_ ?_ rfl rfl rfl rfl
      · exact ⟨by simp [hs], by simp [hs], by simp [hs]⟩
      · intro hcon; simp [hs] at hcon
    · simp only [Except.ok.injEq, Prod.mk.injEq] at h
      obtain ⟨hm, -, he⟩ := h; subst hm; subst he
      simpa using hinv
  · split at h
    · simp at h
    · simp only [Except.ok.injEq, Prod.mk.injEq] at h
      obtain ⟨hm, -, he⟩ := h; subst hm; subst he
      simpa using hinv
    · -- replay started: advance to CATCHUP, replay active
      simp only [Except.ok.injEq, Prod.mk.injEq] at h
      obtain ⟨hm, -, he⟩ := h; subst hm; subst he
      obtain ⟨h1, h2, h3, h4, h5, h6, h7, h8⟩ := hinv
      have hrm0 : destRemovals effs0 = 0 := h3 hpre
      have hsr0 : stopRequests effs0 = 0 := h7 ⟨hpre.2.1, hpre.2.2⟩
      refine ⟨fun _ => rfl, ?_, ?_, ?_, ?_, ?_, ?_, ?_⟩
      · rw [ghostRun_append, ← h2]; rfl
      · intro _; rw [destRemovals_append, hrm0]; rfl
      · intro hcon; rcases hcon with hcon | hcon <;> simp at hcon
      · rw [destRemovals_append, hrm0]; exact Nat.zero_le 1
      · rw [stopRequests_append, hsr0]; exact Nat.zero_le 1
      · intro _; rw [stopRequests_append, hsr0]; rfl
      · intro _; rw [stopRequests_append, hsr0]; rfl

/-- TInv is preserved by `attemptLiveJoin` from its state. -/
theorem tinv_attemptLiveJoin (m : ReplayMerge) (effs0 : List Effect)
    (nowMs : Int) (env : Env) (m' : ReplayMerge) (wc : Nat) (effs : List Effect)
    (hs : m.state = .ATTEMPT_LIVE_JOIN) (hinv : TInv m effs0)
    (h : attemptLiveJoin m nowMs env = .ok (m', wc, effs)) :
    TInv m' (effs0 ++ effs) := by
  have hpre : m.state ≠ .STOP_REPLAY ∧ m.state ≠ .MERGED ∧ m.state ≠ .CLOSED := by
    rw [hs]; exact ⟨by decide, by decide, by decide⟩
  unfold attemptLiveJoin at h
  split at h
  · split at h
    · -- issue get-recording-position request
      simp only [Except.ok.injEq, Prod.mk.injEq] at h
      obtain ⟨hm, -, he⟩ := h; subst hm; subst he
      refine tinv_extend_plain m _ effs0 _ hinv hpre ?_ ?_ rfl rfl rfl rfl
      · exact ⟨by simp [hs], by simp [hs], by simp [hs]⟩
      · intro hcon; simp [hs] at hcon
    · simp only [Except.ok.injEq, Prod.mk.injEq] at h
      obtain ⟨hm, -, he⟩ := h; subst hm; subst he
      simpa using hinv
  · split at h
    · simp at h
    · simp only [Except.ok.injEq, Prod.mk.injEq] at h
      obtain ⟨hm, -, he⟩ := h; subst hm; subst he
      simpa using hinv
    · split at h
      · split at h
        · -- target unresolved, re-request accepted
          simp only [Except.ok.injEq, Prod.mk.injEq] at h
          obtain ⟨hm, -, he⟩ := h; subst hm; subst he
          refine tinv_extend_plain m _ effs0 _ hinv hpre ?_ ?_ rfl rfl rfl rfl
          · exact ⟨by simp [hs], by simp [hs], by simp [hs]⟩
          · intro hcon; simp [hs] at hcon
        · -- target unresolved, offer rejected
          simp only [Except.ok.injEq, Prod.mk.injEq] at h
          obtain ⟨hm, -, he⟩ := h; subst hm; subst he
          refine tinv_extend_plain m _ effs0 _ hinv hpre ?_ ?_ rfl rfl rfl rfl
          · exact ⟨by simp [hs], by simp [hs], by simp [hs]⟩
          · intro hcon; simp [hs] at hcon
      · split at h
        · split at h
          · -- add live destination, back to CATCHUP
            simp only [Except.ok.injEq, Prod.mk.injEq] at h
            obtain ⟨hm, -, he⟩ := h; subst hm; subst he
            refine tinv_extend_plain m _ effs0 _ hinv hpre ?_ ?_ rfl rfl rfl rfl
            · exact ⟨by simp, by simp, by simp⟩
            · intro _; rfl
          · split at h
            · -- cutover: remove replay destination, go to STOP_REPLAY
              simp only [Except.ok.injEq, Prod.mk.injEq] at h
              obtain ⟨hm, -, he⟩ := h; subst hm; subst he
              obtain ⟨h1, h2, h3, h4, h5, h6, h7, h8⟩ := hinv
              have hrm0 : destRemovals effs0 = 0 := h3 hpre
              have hsr0 : stopRequests effs0 = 0 := h7 ⟨hpre.2.1, hpre.2.2⟩
              refine ⟨?_, ?_, ?_, ?_, ?_, ?_, ?_, ?_⟩
              · intro hcon; simp at hcon
              · rw [ghostRun_append, ← h2]; rfl
              · intro hcon; exact absurd rfl hcon.1
              · intro _; rw [destRemovals_append, hrm0]; rfl
              · rw [destRemovals_append, hrm0]; exact Nat.le_refl 1
              · rw [stopRequests_append, hsr0]; exact Nat.zero_le 1
              · intro _; rw [stopRequests_append, hsr0]; rfl
              · intro _; rw [stopRequests_append, hsr0]; rfl
            · -- resolved, no action: back to CATCHUP
              simp only [Except.ok.injEq, Prod.mk.injEq] at h
              obtain ⟨hm, -, he⟩ := h; subst hm; subst he
              refine tinv_extend_plain m _ effs0 _ hinv hpre ?_ ?_ rfl rfl rfl rfl
              · exact ⟨by simp, by simp, by simp⟩
              · intro _; rfl
        · -- image not yet resolved: back to CATCHUP
          simp only [Except.ok.injEq, Prod.mk.injEq] at h
          obtain ⟨hm, -, he⟩ := h; subst hm; subst he
          refine tinv_extend_plain m _ effs0 _ hinv hpre ?_ ?_ rfl rfl rfl rfl
          · exact ⟨by simp, by simp, by simp⟩
          · intro _; rfl

/-- TInv is preserved by `stopReplay` from its state. -/
theorem tinv_stopReplay (m : ReplayMerge) (effs0 : List Effect) (env : Env)
    (m' : ReplayMerge) (wc : Nat) (effs : List Effect)
    (hs : m.state = .STOP_REPLAY) (hinv : TInv m effs0)
    (h : stopReplay m env = .ok (m', wc, effs)) :
    TInv m' (effs0 ++ effs) := by
  obtain ⟨h1, h2, h3, h4, h5, h6, h7, h8⟩ := hinv
  unfold stopReplay at h
  split at h
  · -- stop-replay offer accepted: replay inactive, MERGED
    simp only [Except.ok.injEq, Prod.mk.injEq] at h
    obtain ⟨hm, -, he⟩ := h; subst hm; subst he
    have hrm0 : destRemovals effs0 = 1 := h4 (Or.inl hs)
    have hsr0 : stopRequests effs0 = 0 := h7 (by rw [hs]; exact ⟨by decide, by decide⟩)
    refine ⟨?_, ?_, ?_, ?_, ?_, ?_, ?_, ?_⟩
    · intro hcon; simp at hcon
    · rw [ghostRun_append, ← h2]; rfl
    · intro hcon; exact absurd rfl hcon.2.1
    · intro _; rw [destRemovals_append, hrm0]; rfl
    · rw [destRemovals_append, hrm0]; exact Nat.le_refl 1
    · rw [stopRequests_append, hsr0]; exact Nat.le_refl 1
    · intro hcon; exact absurd rfl hcon.1
    · intro ha; simp at ha
  · -- offer rejected: no work
    simp only [Except.ok.injEq, Prod.mk.injEq] at h
    obtain ⟨hm, -, he⟩ := h; subst hm; subst he
    simpa using ⟨h1, h2, h3, h4, h5, h6, h7, h8⟩

/-- TInv is preserved by `teardown`. -/
theorem tinv_teardown (m : ReplayMerge) (effs0 : List Effect) (env : CloseEnv)
    (hinv : TInv m effs0) :
    TInv (teardown m env).1 (effs0 ++ (teardown m env).2) := by
  obtain ⟨h1, h2, h3, h4, h5, h6, h7, h8⟩ := hinv
  unfold teardown
  split
  · simpa using ⟨h1, h2, h3, h4, h5, h6, h7, h8⟩
  · next hncl =>
    split
    · -- aeron client closed: just mark CLOSED
      refine ⟨?_, ?_, ?_, ?_, ?_, ?_, ?_, ?_⟩ <;>
        simp only [List.append_nil]
      · intro hcon; simp at hcon
      · exact h2
      · intro hcon; exact absurd rfl hcon.2.2
      · intro hcon; rcases hcon with hcon | hcon <;> simp at hcon
      · exact h5
      · exact h6
      · intro hcon; exact absurd rfl hcon.2
      · exact h8
    · split
      · next hact =>
        -- replay still active: best-effort stop request
        have hsr0 : stopRequests effs0 = 0 := h8 hact
        refine ⟨?_, ?_, ?_, ?_, ?_, ?_, ?_, ?_⟩
        · intro hcon; simp at hcon
        · rw [ghostRun_append, ← h2]
          split <;> split <;> rfl
        · intro hcon; exact absurd rfl hcon.2.2
        · intro hcon; rcases hcon with hcon | hcon <;> simp at hcon
        · rw [destRemovals_append, destRemovals_append]
          have hx : destRemovals
              (if env.enqueueOk = true then
                [Effect.stopReplayRequest env.mintedCorrelationId] else []) = 0 := by
            split <;> rfl
          rw [hx]
          split
          · next hcond =>
            have hz : destRemovals effs0 = 0 := h3 ⟨hcond.2, hcond.1, hncl⟩
            rw [hz]; exact Nat.le_refl 1
          · exact h5
        · rw [stopRequests_append, stopRequests_append, hsr0]
          have hx : stopRequests
              (if m.state ≠ MergeState.MERGED ∧ m.state ≠ MergeState.STOP_REPLAY then
                [Effect.removeDestination m.cfg.replayDestination] else []) = 0 := by
            split <;> rfl
          rw [hx]
          split
          · exact Nat.le_refl 1
          · exact Nat.zero_le 1
        · intro hcon; exact absurd rfl hcon.2
        · intro ha; simp at ha
      · next hact =>
        -- replay not active: at most the destination removal
        refine ⟨?_, ?_, ?_, ?_, ?_, ?_, ?_, ?_⟩
        · intro hcon; simp at hcon
        · rw [ghostRun_append, ← h2]
          split <;> rfl
        · intro hcon; exact absurd rfl hcon.2.2
        · intro hcon; rcases hcon with hcon | hcon <;> simp at hcon
        · rw [destRemovals_append]
          split
          · next hcond =>
            have hz : destRemovals effs0 = 0 := h3 ⟨hcond.2, hcond.1, hncl⟩
            rw [hz]; exact Nat.le_refl 1
          · exact h5
        · rw [stopRequests_append]
          have hx : stopRequests
              (if m.state ≠ MergeState.MERGED ∧ m.state ≠ MergeState.STOP_REPLAY then
                [Effect.removeDestination m.cfg.replayDestination] else []) = 0 := by
            split <;> rfl
          rw [hx, Nat.add_zero]; exact h6
        · intro hcon; exact absurd rfl hcon.2
        · intro ha
          exact absurd ha (by simpa using hact)

/-- TInv is preserved by a `step` from any state. -/
theorem tinv_step (m : ReplayMerge) (effs0 : List Effect) (nowMs : Int)
    (env : Env) (m' : ReplayMerge) (wc : Nat) (effs : List Effect)
    (hinv : TInv m effs0) (h : step m nowMs env = .ok (m', wc, effs)) :
    TInv m' (effs0 ++ effs) := by
  cases hs : m.state <;> simp only [step, hs] at h
  case GET_RECORDING_POSITION =>
    exact tinv_getRecordingPosition m effs0 nowMs env m' wc effs hs hinv h
  case REPLAY => exact tinv_replay m effs0 nowMs env m' wc effs hs hinv h
  case CATCHUP => exact tinv_catchup m effs0 nowMs env m' wc effs hs hinv h
  case ATTEMPT_LIVE_JOIN =>
    exact tinv_attemptLiveJoin m effs0 nowMs env m' wc effs hs hinv h
  case STOP_REPLAY => exact tinv_stopReplay m effs0 env m' wc effs hs hinv h
  case MERGED =>
    simp only [Except.ok.injEq, Prod.mk.injEq] at h
    obtain ⟨hm, -, he⟩ := h; subst hm; subst he
    simpa using hinv
  case CLOSED =>
    simp only [Except.ok.injEq, Prod.mk.injEq] at h
    obtain ⟨hm, -, he⟩ := h; subst hm; subst he
    simpa using hinv

/-- TInv holds of a freshly constructed machine with an empty trace. -/
theorem tinv_init (cfg : Config) (nowMs : Int) : TInv (initMerge cfg nowMs) [] := by
  refine ⟨?_, rfl, fun _ => rfl, ?_, ?_, ?_, fun _ => rfl, fun _ => rfl⟩
  · intro hcon; simp [initMerge] at hcon
  · intro hcon; rcases hcon with hcon | hcon <;> simp [initMerge] at hcon
  · exact Nat.zero_le 1
  · exact Nat.zero_le 1

/-- TInv is preserved along any run of host-loop operations. -/
theorem tinv_run (m : ReplayMerge) (effs0 : List Effect) (ops : List Op)
    (hinv : TInv m effs0) :
    TInv (run m ops).1 (effs0 ++ (run m ops).2) := by
  induction ops generalizing m effs0 with
  | nil => rw [run]; simpa using hinv
  | cons op ops ih =>
    cases op with
    | work nowMs env =>
      rw [run, applyOp]
      cases hstep : step m nowMs env with
      | error e => simpa using hinv
      | ok r =>
        obtain ⟨m1, wc, effs⟩ := r
        have h1 := tinv_step m effs0 nowMs env m1 wc effs hinv hstep
        have h2 := ih m1 (effs0 ++ effs) h1
        simpa [List.append_assoc] using h2
    | close cenv =>
      rw [run, applyOp]
      have h1 := tinv_teardown m effs0 cenv hinv
      have h2 := ih (teardown m cenv).1 (effs0 ++ (teardown m cenv).2) h1
      simpa [List.append_assoc] using h2

/-- Teardown always lands in CLOSED. -/
theorem teardown_closes (m : ReplayMerge) (env : CloseEnv) :
    (teardown m env).1.state = .CLOSED := by
  unfold teardown
  split
  · next hcl => simpa using hcl
  · split
    · rfl
    · split <;> rfl

/-- Every transition taken by `step` is an edge of the state diagram. -/
theorem step_allowedEdge (m : ReplayMerge) (nowMs : Int) (env : Env)
    (m' : ReplayMerge) (wc : Nat) (effs : List Effect)
    (h : step m nowMs env = .ok (m', wc, effs)) :
    allowedEdge m.state m'.state = true := by
  cases hs : m.state <;> simp only [step, hs] at h
  case GET_RECORDING_POSITION =>
    unfold getRecordingPosition at h
    split at h
    · split at h <;>
        (simp only [Except.ok.injEq, Prod.mk.injEq] at h;
         obtain ⟨hm, -, -⟩ := h; subst hm; simp [allowedEdge, hs])
    · split at h
      · simp at h
      · simp only [Except.ok.injEq, Prod.mk.injEq] at h
        obtain ⟨hm, -, -⟩ := h; subst hm; simp [allowedEdge, hs]
      · split at h
        · split at h <;>
            (simp only [Except.ok.injEq, Prod.mk.injEq] at h;
             obtain ⟨hm, -, -⟩ := h; subst hm; simp [allowedEdge, hs])
        · simp only [Except.ok.injEq, Prod.mk.injEq] at h
          obtain ⟨hm, -, -⟩ := h; subst hm; simp [allowedEdge, hs]
  case REPLAY =>
    unfold replay at h
    split at h
    · split at h <;>
        (simp only [Except.ok.injEq, Prod.mk.injEq] at h;
         obtain ⟨hm, -, -⟩ := h; subst hm; simp [allowedEdge, hs])
    · split at h
      · simp at h
      · simp only [Except.ok.injEq, Prod.mk.injEq] at h
        obtain ⟨hm, -, -⟩ := h; subst hm; simp [allowedEdge, hs]
      · simp only [Except.ok.injEq, Prod.mk.injEq] at h
        obtain ⟨hm, -, -⟩ := h; subst hm; simp [allowedEdge, hs]
  case CATCHUP =>
    obtain ⟨hrs, -, -, -, -⟩ := catchupResolveImage_fields m nowMs env
    unfold catchup catchupCompare at h
    split at h
    · split at h
      · simp only [Except.ok.injEq, Prod.mk.injEq] at h
        obtain ⟨hm, -, -⟩ := h; subst hm; simp [allowedEdge, hs]
      · split at h
        · simp at h
        · split at h <;>
            (simp only [Except.ok.injEq, Prod.mk.injEq] at h;
             obtain ⟨hm, -, -⟩ := h; subst hm; simp [allowedEdge, hrs, hs])
    · simp only [Except.ok.injEq, Prod.mk.injEq] at h
      obtain ⟨hm, -, -⟩ := h; subst hm; simp [allowedEdge, hrs, hs]
  case ATTEMPT_LIVE_JOIN =>
    unfold attemptLiveJoin at h
    split at h
    · split at h <;>
        (simp only [Except.ok.injEq, Prod.mk.injEq] at h;
         obtain ⟨hm, -, -⟩ := h; subst hm; simp [allowedEdge, hs])
    · split at h
      · simp at h
      · simp only [Except.ok.injEq, Prod.mk.injEq] at h
        obtain ⟨hm, -, -⟩ := h; subst hm; simp [allowedEdge, hs]
      · split at h
        · split at h <;>
            (simp only [Except.ok.injEq, Prod.mk.injEq] at h;
             obtain ⟨hm, -, -⟩ := h; subst hm; simp [allowedEdge, hs])
        · split at h
          · split at h
            · simp only [Except.ok.injEq, Prod.mk.injEq] at h
              obtain ⟨hm, -, -⟩ := h; subst hm; simp [allowedEdge, hs]
            · split at h <;>
                (simp only [Except.ok.injEq, Prod.mk.injEq] at h;
                 obtain ⟨hm, -, -⟩ := h; subst hm; simp [allowedEdge, hs])
          · simp only [Except.ok.injEq, Prod.mk.injEq] at h
            obtain ⟨hm, -, -⟩ := h; subst hm; simp [allowedEdge, hs]
  case STOP_REPLAY =>
    unfold stopReplay at h
    split at h <;>
      (simp only [Except.ok.injEq, Prod.mk.injEq] at h;
       obtain ⟨hm, -, -⟩ := h; subst hm; simp [allowedEdge, hs])
  case MERGED =>
    simp only [Except.ok.injEq, Prod.mk.injEq] at h
    obtain ⟨hm, -, -⟩ := h; subst hm; simp [allowedEdge, hs]
  case CLOSED =>
    simp only [Except.ok.injEq, Prod.mk.injEq] at h
    obtain ⟨hm, -, -⟩ := h; subst hm; simp [allowedEdge, hs]

/-- The state diagram is monotone in the enum order except for the single
loop-back edge ATTEMPT_LIVE_JOIN → CATCHUP. -/
theorem allowedEdge_monotone (s t : MergeState) (h : allowedEdge s t = true) :
    s.idx ≤ t.idx ∨ (s = .ATTEMPT_LIVE_JOIN ∧ t = .CATCHUP) := by
  revert h; cases s <;> cases t <;> decide

/-- Any single step consumes at most one matched response and enqueues at
most one awaited request. -/
theorem step_effectBounds (m : ReplayMerge) (nowMs : Int) (env : Env)
    (m' : ReplayMerge) (wc : Nat) (effs : List Effect)
    (h : step m nowMs env = .ok (m', wc, effs)) :
    matchedResponses effs ≤ 1 ∧ awaitedRequests effs ≤ 1 := by
  cases hs : m.state <;> simp only [step, hs] at h
  case GET_RECORDING_POSITION =>
    unfold getRecordingPosition at h
    split at h
    · split at h <;>
        (simp only [Except.ok.injEq, Prod.mk.injEq] at h;
         obtain ⟨-, -, he⟩ := h; subst he;
         refine ⟨?_, ?_⟩ <;> first | exact Nat.le_refl 1 | exact Nat.zero_le 1)
    · split at h
      · simp at h
      · simp only [Except.ok.injEq, Prod.mk.injEq] at h
        obtain ⟨-, -, he⟩ := h; subst he
        exact ⟨Nat.zero_le 1, Nat.zero_le 1⟩
      · split at h
        · split at h <;>
            (simp only [Except.ok.injEq, Prod.mk.injEq] at h;
             obtain ⟨-, -, he⟩ := h; subst he;
             refine ⟨?_, ?_⟩ <;> first | exact Nat.le_refl 1 | exact Nat.zero_le 1)
        · simp only [Except.ok.injEq, Prod.mk.injEq] at h
          obtain ⟨-, -, he⟩ := h; subst he
          exact ⟨Nat.le_refl 1, Nat.zero_le 1⟩
  case REPLAY =>
    unfold replay at h
    split at h
    · split at h <;>
        (simp only [Except.ok.injEq, Prod.mk.injEq] at h;
         obtain ⟨-, -, he⟩ := h; subst he;
         refine ⟨?_, ?_⟩ <;> first | exact Nat.le_refl 1 | exact Nat.zero_le 1)
    · split at h
      · simp at h
      · simp only [Except.ok.injEq, Prod.mk.injEq] at h
        obtain ⟨-, -, he⟩ := h; subst he
        exact ⟨Nat.zero_le 1, Nat.zero_le 1⟩
      · simp only [Except.ok.injEq, Prod.mk.injEq] at h
        obtain ⟨-, -, he⟩ := h; subst he
        exact ⟨Nat.le_refl 1, Nat.zero_le 1⟩
  case CATCHUP =>
    unfold catchup catchupCompare at h
    split at h
    · split at h
      · simp only [Except.ok.injEq, Prod.mk.injEq] at h
        obtain ⟨-, -, he⟩ := h; subst he
        exact ⟨Nat.zero_le 1, Nat.zero_le 1⟩
      · split at h
        · simp at h
        · split at h <;>
            (simp only [Except.ok.injEq, Prod.mk.injEq] at h;
             obtain ⟨-, -, he⟩ := h; subst he;
             exact ⟨Nat.zero_le 1, Nat.zero_le 1⟩)
    · simp only [Except.ok.injEq, Prod.mk.injEq] at h
      obtain ⟨-, -, he⟩ := h; subst he
      exact ⟨Nat.zero_le 1, Nat.zero_le 1⟩
  case ATTEMPT_LIVE_JOIN =>
    unfold attemptLiveJoin at h
    split at h
    · split at h <;>
        (simp only [Except.ok.injEq, Prod.mk.injEq] at h;
         obtain ⟨-, -, he⟩ := h; subst he;
         refine ⟨?_, ?_⟩ <;> first | exact Nat.le_refl 1 | exact Nat.zero_le 1)
    · split at h
      · simp at h
      · simp only [Except.ok.injEq, Prod.mk.injEq] at h
        obtain ⟨-, -, he⟩ := h; subst he
        exact ⟨Nat.zero_le 1, Nat.zero_le 1⟩
      · split at h
        · split at h <;>
            (simp only [Except.ok.injEq, Prod.mk.injEq] at h;
             obtain ⟨-, -, he⟩ := h; subst he;
             refine ⟨?_, ?_⟩ <;> first | exact Nat.le_refl 1 | exact Nat.zero_le 1)
        · split at h
          · split at h
            · simp only [Except.ok.injEq, Prod.mk.injEq] at h
              obtain ⟨-, -, he⟩ := h; subst he
              exact ⟨Nat.le_refl 1, Nat.zero_le 1⟩
            · split at h <;>
                (simp only [Except.ok.injEq, Prod.mk.injEq] at h;
                 obtain ⟨-, -, he⟩ := h; subst he;
                 exact ⟨Nat.le_refl 1, Nat.zero_le 1⟩)
          · simp only [Except.ok.injEq, Prod.mk.injEq] at h
            obtain ⟨-, -, he⟩ := h; subst he
            exact ⟨Nat.le_refl 1, Nat.zero_le 1⟩
  case STOP_REPLAY =>
    unfold stopReplay at h
    split at h <;>
      (simp only [Except.ok.injEq, Prod.mk.injEq] at h;
       obtain ⟨-, -, he⟩ := h; subst he;
       exact ⟨Nat.zero_le 1, Nat.zero_le 1⟩)
  case MERGED =>
    simp only [Except.ok.injEq, Prod.mk.injEq] at h
    obtain ⟨-, -, he⟩ := h; subst he
    exact ⟨Nat.zero_le 1, Nat.zero_le 1⟩
  case CLOSED =>
    simp only [Except.ok.injEq, Prod.mk.injEq] at h
    obtain ⟨-, -, he⟩ := h; subst he
    exact ⟨Nat.zero_le 1, Nat.zero_le 1⟩

/-! ### Concrete fixtures used by witnesses and counterexamples -/

/-- Small standing configuration used by the concrete witnesses. -/
def cfgW : Config :=
  { replayDestination := "aeron:udp?endpoint=localhost:40001"
    liveDestination := "aeron:udp?endpoint=localhost:40002"
    recordingId := 7
    startPosition := 0
    mergeProgressTimeoutMs := 5000
    controlSessionId := 42
    liveAddThreshold := 32
    replayRemoveThreshold := 0 }

/-- Environment in which a fresh request is accepted and the poller yields
nothing. -/
def envIssueW : Env :=
  { mintedCorrelationId := 10, enqueueOk := true, pollCount := 0,
    pollComplete := false, pollControlSessionId := 42, pollCorrelationId := 0,
    pollIsCodeError := false, pollRelevantId := 0, pollErrorMessage := "",
    subIsConnected := false, imageFound := false, imagePosition := 0,
    imageClosed := false }

/-! ### Claim theorems -/

/-- C1: every transition taken by `step` is an edge of the diagram
GET_RECORDING_POSITION → REPLAY → CATCHUP → ATTEMPT_LIVE_JOIN →
{CATCHUP, STOP_REPLAY} → MERGED (or a self-loop, or close); every allowed
edge is forward in the enum order except the single loop-back
ATTEMPT_LIVE_JOIN → CATCHUP; and teardown reaches CLOSED from every state,
so CLOSED is reachable from everywhere. -/
theorem claimC1_state_monotone :
    (∀ (m : ReplayMerge) (nowMs : Int) (env : Env) (m' : ReplayMerge)
        (wc : Nat) (effs : List Effect),
      step m nowMs env = .ok (m', wc, effs) →
      allowedEdge m.state m'.state = true) ∧
    (∀ (s t : MergeState), allowedEdge s t = true →
      s.idx ≤ t.idx ∨ (s = .ATTEMPT_LIVE_JOIN ∧ t = .CATCHUP)) ∧
    (∀ (m : ReplayMerge) (env : CloseEnv),
      (teardown m env).1.state = .CLOSED ∧
      allowedEdge m.state .CLOSED = true) :=
  ⟨step_allowedEdge, allowedEdge_monotone, fun m env =>
    ⟨teardown_closes m env, by simp [allowedEdge]⟩⟩

/-- C1 witness: the first step of a fresh machine (which issues the
get-recording-position request) takes an allowed edge, and the
GET_RECORDING_POSITION → REPLAY edge is forward. -/
theorem claimC1_state_monotone_witness :
    allowedEdge (initMerge cfgW 0).state
      ({ (initMerge cfgW 0) with
          timeOfLastProgressMs := 0,
          activeCorrelationId := 10 }).state = true ∧
    (MergeState.GET_RECORDING_POSITION.idx ≤ MergeState.REPLAY.idx ∨
      (MergeState.GET_RECORDING_POSITION = MergeState.ATTEMPT_LIVE_JOIN ∧
       MergeState.REPLAY = MergeState.CATCHUP)) :=
  ⟨claimC1_state_monotone.1 (initMerge cfgW 0) 0 envIssueW _ 1
      [.getRecordingPositionRequest 10] rfl,
   claimC1_state_monotone.2.1 _ _ (by decide)⟩

/-- C2: along every run from construction, the outstanding correlation id
equals the ghost slot dictated by the observable effect trace (non-sentinel
exactly inside a successfully-enqueued-awaited-request → matched-response
window, cleared by the matched response), and any single step consumes at
most one matched response and opens at most one request window — so at most
one request is outstanding at any time. -/
theorem claimC2_correlation_window :
    (∀ (cfg : Config) (now0 : Int) (ops : List Op),
      (run (initMerge cfg now0) ops).1.activeCorrelationId =
        ghostRun NULL_VALUE (run (initMerge cfg now0) ops).2) ∧
    (∀ (m : ReplayMerge) (nowMs : Int) (env : Env) (m' : ReplayMerge)
        (wc : Nat) (effs : List Effect),
      step m nowMs env = .ok (m', wc, effs) →
      matchedResponses effs ≤ 1 ∧ awaitedRequests effs ≤ 1) := by
  constructor
  · intro cfg now0 ops
    have h := tinv_run (initMerge cfg now0) [] ops (tinv_init cfg now0)
    simpa using h.2.1
  · exact step_effectBounds

/-- C2 witness: after the first (request-issuing) step of a fresh machine the
slot holds the issued correlation id, as the ghost trace dictates, and that
step consumed no response and opened one window. -/
theorem claimC2_correlation_window_witness :
    (run (initMerge cfgW 0) [Op.work 0 envIssueW]).1.activeCorrelationId =
      ghostRun NULL_VALUE (run (initMerge cfgW 0) [Op.work 0 envIssueW]).2 ∧
    matchedResponses [Effect.getRecordingPositionRequest 10] ≤ 1 ∧
    awaitedRequests [Effect.getRecordingPositionRequest 10] ≤ 1 :=
  ⟨claimC2_correlation_window.1 cfgW 0 [Op.work 0 envIssueW],
   claimC2_correlation_window.2 (initMerge cfgW 0) 0 envIssueW
     ({ (initMerge cfgW 0) with
         timeOfLastProgressMs := 0,
         activeCorrelationId := 10 }) 1
     [Effect.getRecordingPositionRequest 10] rfl⟩

/-- Teardown of an already-CLOSED machine is a no-op. -/
theorem teardown_noop_closed (m : ReplayMerge) (env : CloseEnv)
    (h : m.state = .CLOSED) : teardown m env = (m, []) := by
  unfold teardown
  rw [if_pos h]

/-- Machine sitting in STOP_REPLAY with an active replay (used as a concrete
input below). -/
def mStopW : ReplayMerge :=
  { cfg := cfgW, state := .STOP_REPLAY, activeCorrelationId := NULL_VALUE,
    nextTargetPosition := 1000, isReplayActive := true, isLiveAdded := true,
    replaySessionId := 77, timeOfLastProgressMs := 0,
    positionOfLastProgress := 1000, imageResolved := true }

/-- Environment whose proxy accepts the offer while the poller yields no
completed response at all. -/
def envStopW : Env :=
  { mintedCorrelationId := 11, enqueueOk := true, pollCount := 0,
    pollComplete := false, pollControlSessionId := 42, pollCorrelationId := 0,
    pollIsCodeError := false, pollRelevantId := 0, pollErrorMessage := "",
    subIsConnected := true, imageFound := true, imagePosition := 1000,
    imageClosed := false }

/-- C3 counterexample: from STOP_REPLAY, with the poller yielding no
completed response at all (pollCount = 0), the step still reaches MERGED and
marks the replay inactive as soon as the stop-replay offer is accepted — no
stop-replay response is consumed, contradicting the claim that MERGED is
reached only after a successful stop-replay response. -/
theorem claimC3_counterexample :
    envStopW.pollCount = 0 ∧
    step mStopW 5 envStopW =
      .ok ({ mStopW with isReplayActive := false, state := .MERGED }, 1,
        [.stopReplayRequest 11]) ∧
    matchedResponses [Effect.stopReplayRequest 11] = 0 :=
  ⟨rfl, rfl, rfl⟩

/-- C3 (amended): in STOP_REPLAY a step offers a stop-replay request; when
the proxy accepts the offer it marks the replay inactive and transitions to
MERGED with work count 1 — fire-and-forget, without awaiting any response —
and otherwise it leaves the machine unchanged with work count 0; the machine
reaches MERGED only from STOP_REPLAY via a successfully enqueued stop-replay
request, consuming no response in that step. -/
theorem claimC3_stop_replay :
    (∀ (m : ReplayMerge) (nowMs : Int) (env : Env),
      m.state = .STOP_REPLAY →
      (env.enqueueOk = true →
        step m nowMs env =
          .ok ({ m with isReplayActive := false, state := .MERGED }, 1,
            [.stopReplayRequest env.mintedCorrelationId])) ∧
      (env.enqueueOk = false → step m nowMs env = .ok (m, 0, []))) ∧
    (∀ (m : ReplayMerge) (nowMs : Int) (env : Env) (m' : ReplayMerge)
        (wc : Nat) (effs : List Effect),
      m.state ≠ .MERGED → step m nowMs env = .ok (m', wc, effs) →
      m'.state = .MERGED →
      m.state = .STOP_REPLAY ∧ stopRequests effs = 1 ∧
        env.enqueueOk = true ∧ matchedResponses effs = 0) := by
  constructor
  · intro m nowMs env hs
    constructor
    · intro henq
      simp only [step, hs]
      unfold stopReplay
      rw [if_pos henq]
    · intro henq
      simp only [step, hs]
      unfold stopReplay
      rw [if_neg (by simp [henq])]
  · intro m nowMs env m' wc effs hne h hM
    have hedge := step_allowedEdge m nowMs env m' wc effs h
    rw [hM] at hedge
    have hstop : m.state = .STOP_REPLAY := by
      revert hedge hne
      cases m.state <;> decide
    refine ⟨hstop, ?_⟩
    simp only [step, hstop] at h
    unfold stopReplay at h
    split at h
    · next henq =>
      simp only [Except.ok.injEq, Prod.mk.injEq] at h
      obtain ⟨-, -, he⟩ := h; subst he
      exact ⟨rfl, henq, rfl⟩
    · simp only [Except.ok.injEq, Prod.mk.injEq] at h
      obtain ⟨hm, -, -⟩ := h
      rw [← hm, hstop] at hM
      exact absurd hM (by decide)

/-- C3 witness: the concrete STOP_REPLAY step of the fixture machine, and the
only-via-stop-replay direction applied to it. -/
theorem claimC3_stop_replay_witness :
    step mStopW 5 envStopW =
      .ok ({ mStopW with isReplayActive := false, state := .MERGED }, 1,
        [.stopReplayRequest 11]) ∧
    (mStopW.state = .STOP_REPLAY ∧
      stopRequests [Effect.stopReplayRequest 11] = 1 ∧
      envStopW.enqueueOk = true ∧
      matchedResponses [Effect.stopReplayRequest 11] = 0) :=
  ⟨(claimC3_stop_replay.1 mStopW 5 envStopW rfl).1 rfl,
   claimC3_stop_replay.2 mStopW 5 envStopW
     ({ mStopW with isReplayActive := false, state := .MERGED }) 1
     [Effect.stopReplayRequest 11] (by decide) rfl rfl⟩

/-- Close environment with the aeron client still open. -/
def closeEnvW : CloseEnv :=
  { aeronClosed := false, mintedCorrelationId := 13, enqueueOk := true }

/-- Close environment with the aeron client already closed. -/
def closeEnvClosedW : CloseEnv :=
  { aeronClosed := true, mintedCorrelationId := 14, enqueueOk := true }

/-- C4: teardown is idempotent and cleanup is exactly-once: along any run the
replay destination is removed at most once and at most one stop-replay
request is issued; teardown of a CLOSED machine is a no-op (so a second close
does nothing); when the aeron client is already closed teardown performs no
remote calls; and teardown removes the destination only when the state is
neither MERGED nor STOP_REPLAY. -/
theorem claimC4_close_idempotent :
    (∀ (cfg : Config) (now0 : Int) (ops : List Op),
      destRemovals (run (initMerge cfg now0) ops).2 ≤ 1 ∧
      stopRequests (run (initMerge cfg now0) ops).2 ≤ 1) ∧
    (∀ (m : ReplayMerge) (env : CloseEnv), m.state = .CLOSED →
      teardown m env = (m, [])) ∧
    (∀ (m : ReplayMerge) (env env' : CloseEnv),
      teardown (teardown m env).1 env' = ((teardown m env).1, [])) ∧
    (∀ (m : ReplayMerge) (env : CloseEnv), env.aeronClosed = true →
      (teardown m env).2 = []) ∧
    (∀ (m : ReplayMerge) (env : CloseEnv),
      (m.state = .MERGED ∨ m.state = .STOP_REPLAY) →
      destRemovals (teardown m env).2 = 0) := by
  refine ⟨?_, ?_, ?_, ?_, ?_⟩
  · intro cfg now0 ops
    have h := tinv_run (initMerge cfg now0) [] ops (tinv_init cfg now0)
    exact ⟨by simpa using h.2.2.2.2.1, by simpa using h.2.2.2.2.2.1⟩
  · exact teardown_noop_closed
  · intro m env env'
    exact teardown_noop_closed _ env' (teardown_closes m env)
  · intro m env hcl
    unfold teardown
    split <;> rfl
  · intro m env hsm
    unfold teardown
    split
    · rfl
    · split
      · rfl
      · split
        · split
          · next hcond =>
            rcases hsm with hsm | hsm
            · exact absurd hsm hcond.1
            · exact absurd hsm hcond.2
          · split <;> rfl
        · split
          · next hcond =>
            rcases hsm with hsm | hsm
            · exact absurd hsm hcond.1
            · exact absurd hsm hcond.2
          · rfl

/-- C4 witness: the conjuncts applied at concrete inputs — one close on a
fresh machine, a close of an already-closed machine, a double close, a close
with the aeron client gone, and a close from STOP_REPLAY. -/
theorem claimC4_close_idempotent_witness :
    (destRemovals (run (initMerge cfgW 0) [Op.close closeEnvW]).2 ≤ 1 ∧
     stopRequests (run (initMerge cfgW 0) [Op.close closeEnvW]).2 ≤ 1) ∧
    teardown ({ mStopW with state := .CLOSED }) closeEnvW =
      ({ mStopW with state := .CLOSED }, []) ∧
    teardown (teardown mStopW closeEnvW).1 closeEnvW =
      ((teardown mStopW closeEnvW).1, []) ∧
    (teardown mStopW closeEnvClosedW).2 = [] ∧
    destRemovals (teardown mStopW closeEnvW).2 = 0 :=
  ⟨claimC4_close_idempotent.1 cfgW 0 [Op.close closeEnvW],
   claimC4_close_idempotent.2.1 _ closeEnvW rfl,
   claimC4_close_idempotent.2.2.1 mStopW closeEnvW closeEnvW,
   claimC4_close_idempotent.2.2.2.1 mStopW closeEnvClosedW rfl,
   claimC4_close_idempotent.2.2.2.2 mStopW closeEnvW (Or.inr rfl)⟩

/-- C5: a completed control response matching both the control-session id and
the outstanding correlation id and carrying an error code makes the step that
polled it fail immediately with the archive protocol error (the whole step
returns the error: no retry, no state change, no success path). -/
theorem claimC5_error_response_fatal (m : ReplayMerge) (nowMs : Int) (env : Env)
    (hcid : m.activeCorrelationId ≠ NULL_VALUE)
    (hst : m.state = .GET_RECORDING_POSITION ∨ m.state = .REPLAY ∨
      m.state = .ATTEMPT_LIVE_JOIN)
    (hn : 0 < env.pollCount) (hc : env.pollComplete = true)
    (hsid : env.pollControlSessionId = m.cfg.controlSessionId)
    (hcorr : env.pollCorrelationId = m.activeCorrelationId)
    (herr : env.pollIsCodeError = true) :
    step m nowMs env = .error (.archiveError (toInt32 env.pollRelevantId)
      ("archive response for correlationId=" ++ toString m.activeCorrelationId ++
        ", error: " ++ env.pollErrorMessage)) := by
  have hpoll : pollForResponse m.cfg.controlSessionId m.activeCorrelationId env
      = .error (.archiveError (toInt32 env.pollRelevantId)
        ("archive response for correlationId=" ++ toString m.activeCorrelationId ++
          ", error: " ++ env.pollErrorMessage)) := by
    unfold pollForResponse
    rw [if_pos ⟨hn, hc⟩, if_pos ⟨hsid, hcorr⟩, if_pos herr]
  rcases hst with hs | hs | hs
  · simp only [step, hs]
    unfold getRecordingPosition
    rw [if_neg hcid, hpoll]
  · simp only [step, hs]
    unfold replay
    rw [if_neg hcid, hpoll]
  · simp only [step, hs]
    unfold attemptLiveJoin
    rw [if_neg hcid, hpoll]

/-- Machine in GET_RECORDING_POSITION with correlation id 5 outstanding. -/
def mGetW : ReplayMerge :=
  { cfg := cfgW, state := .GET_RECORDING_POSITION, activeCorrelationId := 5,
    nextTargetPosition := NULL_POSITION, isReplayActive := false,
    isLiveAdded := false, replaySessionId := NULL_VALUE,
    timeOfLastProgressMs := 0, positionOfLastProgress := NULL_POSITION,
    imageResolved := false }

/-- Matched, error-flagged control response for correlation id 5. -/
def envErrW : Env :=
  { mintedCorrelationId := 20, enqueueOk := true, pollCount := 1,
    pollComplete := true, pollControlSessionId := 42, pollCorrelationId := 5,
    pollIsCodeError := true, pollRelevantId := 6, pollErrorMessage := "boom",
    subIsConnected := false, imageFound := false, imagePosition := 0,
    imageClosed := false }

/-- C5 witness: the matched error response makes the concrete step fail with
the archive error. -/
theorem claimC5_error_response_fatal_witness :
    step mGetW 3 envErrW = .error (.archiveError (toInt32 6)
      ("archive response for correlationId=" ++ toString (5 : Int) ++
        ", error: " ++ "boom")) :=
  claimC5_error_response_fatal mGetW 3 envErrW (by decide) (Or.inl rfl)
    (by decide) rfl rfl rfl rfl

/-- C6: a completed control response whose control-session id or correlation
id does not match the outstanding request is ignored: the step returns work
count 0, the machine (in particular activeCorrelationId, so the request stays
outstanding) is unchanged, and no effect is produced. -/
theorem claimC6_unmatched_ignored (m : ReplayMerge) (nowMs : Int) (env : Env)
    (hcid : m.activeCorrelationId ≠ NULL_VALUE)
    (hst : m.state = .GET_RECORDING_POSITION ∨ m.state = .REPLAY ∨
      m.state = .ATTEMPT_LIVE_JOIN)
    (hn : 0 < env.pollCount) (hc : env.pollComplete = true)
    (hmis : env.pollControlSessionId ≠ m.cfg.controlSessionId ∨
      env.pollCorrelationId ≠ m.activeCorrelationId) :
    step m nowMs env = .ok (m, 0, []) := by
  have hnm : ¬(env.pollControlSessionId = m.cfg.controlSessionId ∧
      env.pollCorrelationId = m.activeCorrelationId) := by
    intro hcon
    rcases hmis with hmis | hmis
    · exact hmis hcon.1
    · exact hmis hcon.2
  have hpoll : pollForResponse m.cfg.controlSessionId m.activeCorrelationId env
      = .ok false := by
    unfold pollForResponse
    rw [if_pos ⟨hn, hc⟩, if_neg hnm]
  rcases hst with hs | hs | hs
  · simp only [step, hs]
    unfold getRecordingPosition
    rw [if_neg hcid, hpoll]
  · simp only [step, hs]
    unfold replay
    rw [if_neg hcid, hpoll]
  · simp only [step, hs]
    unfold attemptLiveJoin
    rw [if_neg hcid, hpoll]

/-- Completed response for an unrelated correlation id (99), even
error-flagged. -/
def envMissW : Env :=
  { mintedCorrelationId := 21, enqueueOk := true, pollCount := 1,
    pollComplete := true, pollControlSessionId := 42, pollCorrelationId := 99,
    pollIsCodeError := true, pollRelevantId := 6, pollErrorMessage := "boom",
    subIsConnected := false, imageFound := false, imagePosition := 0,
    imageClosed := false }

/-- C6 witness: the unrelated completed response is ignored by the concrete
step. -/
theorem claimC6_unmatched_ignored_witness :
    step mGetW 3 envMissW = .ok (mGetW, 0, []) :=
  claimC6_unmatched_ignored mGetW 3 envMissW (by decide) (Or.inl rfl)
    (by decide) rfl (Or.inr (by decide))

/-- Machine in CATCHUP with a resolved image and target position 50. -/
def mCatchW : ReplayMerge :=
  { cfg := cfgW, state := .CATCHUP, activeCorrelationId := NULL_VALUE,
    nextTargetPosition := 50, isReplayActive := true, isLiveAdded := false,
    replaySessionId := 77, timeOfLastProgressMs := 0,
    positionOfLastProgress := 40, imageResolved := true }

/-- Image closed, but its position (100) is at or past the target (50). -/
def envClosedPastW : Env :=
  { mintedCorrelationId := 30, enqueueOk := true, pollCount := 0,
    pollComplete := false, pollControlSessionId := 42, pollCorrelationId := 0,
    pollIsCodeError := false, pollRelevantId := 0, pollErrorMessage := "",
    subIsConnected := true, imageFound := true, imagePosition := 100,
    imageClosed := true }

/-- C7 counterexample: in CATCHUP with a resolved image that reports closed
but whose position has already reached the target, the step does NOT fail —
it succeeds and advances to ATTEMPT_LIVE_JOIN (the position check comes
before the closed check in the code). -/
theorem claimC7_counterexample :
    mCatchW.state = .CATCHUP ∧ mCatchW.imageResolved = true ∧
    envClosedPastW.imageClosed = true ∧
    step mCatchW 1 envClosedPastW =
      .ok ({ mCatchW with
              timeOfLastProgressMs := 1,
              activeCorrelationId := NULL_VALUE,
              state := .ATTEMPT_LIVE_JOIN },
        1, []) :=
  ⟨rfl, rfl, rfl, rfl⟩

/-- C7 (amended): if, while the state is CATCHUP, the resolved replay image
reports closed while its position is still below the target position, the
step fails with the fatal timeout-class error whose message references
"Image closed unexpectedly"; when the image has already reached the target
the step instead advances normally. -/
theorem claimC7_image_closed (m : ReplayMerge) (nowMs : Int) (env : Env)
    (hs : m.state = .CATCHUP) (hres : m.imageResolved = true)
    (hclosed : env.imageClosed = true)
    (hbelow : env.imagePosition < m.nextTargetPosition) :
    step m nowMs env =
      .error (.timeout "ReplayMerge Image closed unexpectedly.") ∧
    ∃ pre post, "ReplayMerge Image closed unexpectedly." =
      pre ++ "Image closed unexpectedly" ++ post := by
  constructor
  · have hm0 : catchupResolveImage m nowMs env = m := by
      unfold catchupResolveImage
      rw [if_neg (by simp [hres])]
    simp only [step, hs]
    unfold catchup
    rw [hm0]
    unfold catchupCompare
    rw [if_pos hres, if_neg (not_le.mpr hbelow), if_pos hclosed]
  · exact ⟨"ReplayMerge ", ".", rfl⟩

/-- Image closed with position (10) below the target (50). -/
def envClosedBelowW : Env :=
  { envClosedPastW with imagePosition := 10 }

/-- C7 witness: the concrete CATCHUP step with a closed, behind-target image
fails with the timeout error. -/
theorem claimC7_image_closed_witness :
    step mCatchW 1 envClosedBelowW =
      .error (.timeout "ReplayMerge Image closed unexpectedly.") :=
  (claimC7_image_closed mCatchW 1 envClosedBelowW rfl rfl rfl (by decide)).1

/-- Machine in ATTEMPT_LIVE_JOIN with correlation id 7 outstanding, no image
resolved, stale progress clock (0). -/
def mAttemptW : ReplayMerge :=
  { cfg := cfgW, state := .ATTEMPT_LIVE_JOIN, activeCorrelationId := 7,
    nextTargetPosition := 50, isReplayActive := true, isLiveAdded := false,
    replaySessionId := 77, timeOfLastProgressMs := 0,
    positionOfLastProgress := 50, imageResolved := false }

/-- Matched, non-error response delivering a resolved target position 100. -/
def envResolvedW : Env :=
  { mintedCorrelationId := 12, enqueueOk := true, pollCount := 1,
    pollComplete := true, pollControlSessionId := 42, pollCorrelationId := 7,
    pollIsCodeError := false, pollRelevantId := 100, pollErrorMessage := "",
    subIsConnected := true, imageFound := false, imagePosition := 0,
    imageClosed := false }

/-- C8 counterexample: a step that consumes a matched response (the
ATTEMPT_LIVE_JOIN loop-back with no image) does NOT refresh the progress
clock, so checkProgress at the same wall time still fails — contradicting
"the progress clock is refreshed on consuming a matched response, so
immediately after any such event checkProgress does not fail at the same
wall time". -/
theorem claimC8_counterexample :
    step mAttemptW 5001 envResolvedW =
      .ok ({ mAttemptW with
              nextTargetPosition := 100,
              activeCorrelationId := NULL_VALUE,
              state := .CATCHUP },
        1, [.responseMatched 7]) ∧
    matchedResponses [Effect.responseMatched 7] = 1 ∧
    checkProgress ({ mAttemptW with
        nextTargetPosition := 100,
        activeCorrelationId := NULL_VALUE,
        state := .CATCHUP }) 5001 =
      .error (.timeout "ReplayMerge no progress state=2") :=
  ⟨rfl, rfl, rfl⟩

/-- C8 (amended): checkProgress(now) fails with the stall error — whose
message embeds the current state's enum value — exactly when now minus the
progress clock exceeds the configured timeout, and succeeds exactly
otherwise; and any step that refreshes the progress clock to now (issuing a
position/replay request, most matched responses, image position advance)
makes checkProgress succeed at that same wall time when the timeout is
non-negative.  Not every matched response refreshes the clock (see the
counterexample). -/
theorem claimC8_stall_check (m : ReplayMerge) (nowMs : Int) :
    (checkProgress m nowMs =
        .error (.timeout
          ("ReplayMerge no progress state=" ++ toString m.state.idx)) ↔
      m.cfg.mergeProgressTimeoutMs < nowMs - m.timeOfLastProgressMs) ∧
    (checkProgress m nowMs = .ok () ↔
      nowMs - m.timeOfLastProgressMs ≤ m.cfg.mergeProgressTimeoutMs) ∧
    (∀ (env : Env) (m' : ReplayMerge) (wc : Nat) (effs : List Effect),
      step m nowMs env = .ok (m', wc, effs) →
      m'.timeOfLastProgressMs = nowMs →
      0 ≤ m'.cfg.mergeProgressTimeoutMs →
      checkProgress m' nowMs = .ok ()) := by
  have hmain : ∀ (x : ReplayMerge) (t : Int),
      checkProgress x t = .ok () ↔
        t - x.timeOfLastProgressMs ≤ x.cfg.mergeProgressTimeoutMs := by
    intro x t
    unfold checkProgress hasProgressStalled
    split
    · next hcond =>
      simp only [decide_eq_true_eq] at hcond
      constructor
      · intro he; exact absurd he (by simp)
      · intro hle; omega
    · next hcond =>
      simp only [decide_eq_true_eq] at hcond
      constructor
      · intro _; omega
      · intro _; rfl
  refine ⟨?_, hmain m nowMs, ?_⟩
  · unfold checkProgress hasProgressStalled
    split
    · next hcond =>
      simp only [decide_eq_true_eq] at hcond
      constructor
      · intro _; omega
      · intro _; rfl
    · next hcond =>
      simp only [decide_eq_true_eq] at hcond
      constructor
      · intro he; exact absurd he (by simp)
      · intro hgt; omega
  · intro env m' wc effs _hstep hrefresh htmo
    rw [hmain m' nowMs, hrefresh]
    omega

/-- C8 witness: immediately after the clock-refreshing first step of a fresh
machine, checkProgress succeeds at the same wall time. -/
theorem claimC8_stall_check_witness :
    checkProgress ({ (initMerge cfgW 0) with
        timeOfLastProgressMs := 7,
        activeCorrelationId := 10 }) 7 = .ok () :=
  (claimC8_stall_check (initMerge cfgW 0) 7).2.2 envIssueW
    ({ (initMerge cfgW 0) with
        timeOfLastProgressMs := 7,
        activeCorrelationId := 10 }) 1
    [Effect.getRecordingPositionRequest 10] rfl rfl (by decide)

/-- C9: construction fails with the configuration error exactly when the
subscription channel's control-mode attribute is not "manual" (and then
performs no destination add — the error carries no effects); on success it
adds the replay destination, starts in GET_RECORDING_POSITION with no request
outstanding, and initializes the progress clock to the given clock value. -/
theorem claimC9_construction (cfg : Config) (controlMode : String) (nowMs : Int) :
    (controlMode ≠ MDC_CONTROL_MODE_MANUAL →
      construct cfg controlMode nowMs = .error (.illegalArgument
        ("subscription channel must be manual control mode: mode=" ++
          controlMode))) ∧
    (controlMode = MDC_CONTROL_MODE_MANUAL →
      construct cfg controlMode nowMs =
        .ok (initMerge cfg nowMs, [.addDestination cfg.replayDestination])) ∧
    (initMerge cfg nowMs).state = .GET_RECORDING_POSITION ∧
    (initMerge cfg nowMs).timeOfLastProgressMs = nowMs ∧
    (initMerge cfg nowMs).activeCorrelationId = NULL_VALUE := by
  refine ⟨?_, ?_, rfl, rfl, rfl⟩
  · intro hne
    unfold construct
    rw [if_pos hne]
  · intro heq
    unfold construct
    rw [if_neg (not_not_intro heq)]

/-- C9 witness: construction fails on "dynamic" control mode and succeeds on
"manual". -/
theorem claimC9_construction_witness :
    construct cfgW "dynamic" 3 = .error (.illegalArgument
      ("subscription channel must be manual control mode: mode=" ++
        "dynamic")) ∧
    construct cfgW "manual" 3 =
      .ok (initMerge cfgW 3, [.addDestination cfgW.replayDestination]) :=
  ⟨(claimC9_construction cfgW "dynamic" 3).1 (by decide),
   (claimC9_construction cfgW "manual" 3).2.1 rfl⟩

/-- C10: in ATTEMPT_LIVE_JOIN, a matched non-error response delivering a
resolved (non-sentinel) target while the image is still unresolved leaves the
destination set untouched (no add, no remove), leaves the live-added flag and
the progress clock unchanged, and loops back to CATCHUP with work count 1. -/
theorem claimC10_loopback_frame (m : ReplayMerge) (nowMs : Int) (env : Env)
    (hs : m.state = .ATTEMPT_LIVE_JOIN)
    (hcid : m.activeCorrelationId ≠ NULL_VALUE)
    (hn : 0 < env.pollCount) (hc : env.pollComplete = true)
    (hsid : env.pollControlSessionId = m.cfg.controlSessionId)
    (hcorr : env.pollCorrelationId = m.activeCorrelationId)
    (herr : env.pollIsCodeError = false)
    (hresv : env.pollRelevantId ≠ NULL_POSITION)
    (himg : m.imageResolved = false) :
    step m nowMs env =
      .ok ({ m with
              nextTargetPosition := env.pollRelevantId,
              activeCorrelationId := NULL_VALUE,
              state := .CATCHUP },
        1, [.responseMatched m.activeCorrelationId]) ∧
    destAdds [Effect.responseMatched m.activeCorrelationId] = 0 ∧
    destRemovals [Effect.responseMatched m.activeCorrelationId] = 0 ∧
    ({ m with
        nextTargetPosition := env.pollRelevantId,
        activeCorrelationId := NULL_VALUE,
        state := .CATCHUP }).isLiveAdded = m.isLiveAdded ∧
    ({ m with
        nextTargetPosition := env.pollRelevantId,
        activeCorrelationId := NULL_VALUE,
        state := .CATCHUP }).timeOfLastProgressMs = m.timeOfLastProgressMs := by
  have hpoll : pollForResponse m.cfg.controlSessionId m.activeCorrelationId env
      = .ok true := by
    unfold pollForResponse
    rw [if_pos ⟨hn, hc⟩, if_pos ⟨hsid, hcorr⟩, if_neg (by simp [herr])]
  refine ⟨?_, rfl, rfl, rfl, rfl⟩
  simp only [step, hs]
  unfold attemptLiveJoin
  rw [if_neg hcid]
  simp only [hpoll]
  rw [if_neg hresv, if_neg (by simp [himg])]

/-- C10 witness: the concrete loop-back step with the resolved target 100 and
no image. -/
theorem claimC10_loopback_frame_witness :
    step mAttemptW 9 envResolvedW =
      .ok ({ mAttemptW with
              nextTargetPosition := 100,
              activeCorrelationId := NULL_VALUE,
              state := .CATCHUP },
        1, [.responseMatched 7]) :=
  (claimC10_loopback_frame mAttemptW 9 envResolvedW rfl (by decide) (by decide)
    rfl rfl rfl rfl (by decide) rfl).1

end ReplayMergeSpec
